import Mathlib

/-!
# Verification of the quiz-project extraction pipeline and session state machine

Shallow embedding of `src/quiz_running.py` (the extraction logic at lines
165–197 is byte-identical in `src/quiz.py` lines 106–132).  Python values
parsed from JSON are modelled by the inductive `Json`; the stdlib call
`json.loads` is modelled by a recursive-descent parser `json_loads`
(restricted to the constructs the quiz schema can produce: strings with the
common escapes, integers, booleans, null, arrays, objects; `\uXXXX` escapes
and fractional/exponent numbers are outside the model).  The Streamlit
session state and the four user actions are modelled by `SessionState` and
`step`.
-/

namespace Quiz

/-- The result of Python's `json.loads`: JSON values.  Numbers are modelled
as integers (the quiz schema only ever produces strings, and every concrete
input considered below is number-free). -/
inductive Json where
  | null : Json
  | bool (b : Bool) : Json
  | num (n : Int) : Json
  | str (s : String) : Json
  | arr (xs : List Json) : Json
  | obj (fields : List (String × Json)) : Json
deriving Repr

/-- Skip JSON whitespace, as `json.loads` does between tokens. -/
def skipWs : List Char → List Char
  | c :: cs => if c = ' ' ∨ c = '\n' ∨ c = '\t' ∨ c = '\r' then skipWs cs else c :: cs
  | [] => []

/-- The single-character escapes accepted inside a JSON string
(`\uXXXX` is not modelled and makes the parse fail). -/
def escChar (c : Char) : Option Char :=
  if c == 'n' then some '\n'
  else if c == 't' then some '\t'
  else if c == 'r' then some '\r'
  else if c == '"' || c == '\\' || c == '/' then some c
  else if c == 'b' then some '\x08'
  else if c == 'f' then some '\x0c'
  else none

/-- Parse the body of a JSON string, the opening quote already consumed;
returns the string and the remaining input. -/
def parseStrBody : List Char → List Char → Option (String × List Char)
  | [], _ => none
  | '"' :: rest, acc => some (String.mk acc.reverse, rest)
  | '\\' :: c :: rest, acc =>
    match escChar c with
    | some ec => parseStrBody rest (ec :: acc)
    | none => none
  | c :: rest, acc => parseStrBody rest (c :: acc)

/-- Split a leading run of decimal digits from the input. -/
def takeDigits : List Char → (List Char × List Char)
  | [] => ([], [])
  | c :: cs =>
    if c.isDigit then
      let (ds, rest) := takeDigits cs
      (c :: ds, rest)
    else ([], c :: cs)

/-- Decimal value of a digit list. -/
def digitsVal (ds : List Char) : Nat :=
  ds.foldl (fun acc c => 10 * acc + (c.toNat - 48)) 0

/-- Parse a JSON integer starting at a digit run (sign already handled);
fails on a fraction or exponent, which the model does not cover. -/
def parseNat : List Char → Option (Nat × List Char)
  | cs =>
    match takeDigits cs with
    | ([], _) => none
    | (ds, rest) =>
      match rest with
      | '.' :: _ => none
      | 'e' :: _ => none
      | 'E' :: _ => none
      | _ => some (digitsVal ds, rest)

/-- Parse a comma-separated list of JSON values up to the closing `]`,
given a parser `pv` for one value.  `pv` is the value parser at the next
lower fuel, so nesting depth and item count are both bounded by the fuel. -/
def parseItemsWith (pv : List Char → Option (Json × List Char)) :
    Nat → List Char → Option (List Json × List Char)
  | 0, _ => none
  | fuel + 1, cs =>
    match pv cs with
    | none => none
    | some (v, rest) =>
      match skipWs rest with
      | ',' :: rest2 =>
        match parseItemsWith pv fuel rest2 with
        | some (vs, r) => some (v :: vs, r)
        | none => none
      | ']' :: rest2 => some ([v], rest2)
      | _ => none

/-- Parse a comma-separated list of `"key": value` pairs up to the closing
`}`, given a parser `pv` for one value. -/
def parseFieldsWith (pv : List Char → Option (Json × List Char)) :
    Nat → List Char → Option (List (String × Json) × List Char)
  | 0, _ => none
  | fuel + 1, cs =>
    match skipWs cs with
    | '"' :: rest =>
      match parseStrBody rest [] with
      | none => none
      | some (key, rest2) =>
        match skipWs rest2 with
        | ':' :: rest3 =>
          match pv rest3 with
          | none => none
          | some (v, rest4) =>
            match skipWs rest4 with
            | ',' :: rest5 =>
              match parseFieldsWith pv fuel rest5 with
              | some (fs, r) => some ((key, v) :: fs, r)
              | none => none
            | '}' :: rest5 => some ([(key, v)], rest5)
            | _ => none
        | _ => none
    | _ => none

/-- Fuelled parser for one JSON value; returns the value and the remaining
input. -/
def parseVal : Nat → List Char → Option (Json × List Char)
  | 0, _ => none
  | fuel + 1, cs =>
    match skipWs cs with
    | '[' :: rest =>
      match skipWs rest with
      | ']' :: rest2 => some (.arr [], rest2)
      | rest2 =>
        match parseItemsWith (parseVal fuel) fuel rest2 with
        | some (vs, r) => some (.arr vs, r)
        | none => none
    | '{' :: rest =>
      match skipWs rest with
      | '}' :: rest2 => some (.obj [], rest2)
      | rest2 =>
        match parseFieldsWith (parseVal fuel) fuel rest2 with
        | some (fs, r) => some (.obj fs, r)
        | none => none
    | '"' :: rest =>
      match parseStrBody rest [] with
      | some (s, r) => some (.str s, r)
      | none => none
    | 't' :: 'r' :: 'u' :: 'e' :: rest => some (.bool true, rest)
    | 'f' :: 'a' :: 'l' :: 's' :: 'e' :: rest => some (.bool false, rest)
    | 'n' :: 'u' :: 'l' :: 'l' :: rest => some (.null, rest)
    | '-' :: rest =>
      match parseNat rest with
      | some (n, r) => some (.num (-(n : Int)), r)
      | none => none
    | c :: rest =>
      if c.isDigit then
        match parseNat (c :: rest) with
        | some (n, r) => some (.num (n : Int), r)
        | none => none
      else none
    | [] => none

/-- Model of Python's `json.loads`: parse one JSON value and reject any
trailing non-whitespace (CPython raises `JSONDecodeError: Extra data`). -/
def json_loads (s : String) : Option Json :=
  match parseVal (s.length + 2) s.data with
  | some (v, rest) => if (skipWs rest).isEmpty then some v else none
  | none => none

/-- Index of the first occurrence of `c`, if any. -/
def firstIdxOf (c : Char) : List Char → Option Nat
  | [] => none
  | x :: xs => if x = c then some 0 else (firstIdxOf c xs).map (· + 1)

/-- Index of the last occurrence of `c`, if any. -/
def lastIdxOf (c : Char) (cs : List Char) : Option Nat :=
  match firstIdxOf c cs.reverse with
  | some r => some (cs.length - 1 - r)
  | none => none

/-- Model of `re.search(r"\[.*\]", raw_output, re.DOTALL)`
(quiz_running.py line 167 / quiz.py line 107).  With `re.DOTALL` and the
greedy `.*`, a match exists iff some `[` is followed by a later `]`;
leftmost-longest semantics then select the substring from the first `[` of
the whole string through the last `]` of the whole string.  Returns
`match.group(0)`. -/
def findJsonRegion (s : String) : Option String :=
  let cs := s.data
  match firstIdxOf '[' cs, lastIdxOf ']' cs with
  | some i, some j =>
    if i < j then some (String.mk ((cs.drop i).take (j + 1 - i))) else none
  | _, _ => none

/-- The failure exits of the Generate Quiz handler
(quiz_running.py lines 167–197):
`noJsonFound` — the regex found no match (line 192);
`malformedJson` — `json.loads` raised `JSONDecodeError` (line 194);
`incompleteData` — an element was missing a required key (line 179);
`otherError` — any other exception, e.g. a `TypeError` from `key in q_item`
on an element that supports no membership test (line 196). -/
inductive ExtractionError where
  | noJsonFound : ExtractionError
  | malformedJson : ExtractionError
  | incompleteData : ExtractionError
  | otherError : ExtractionError
deriving Repr, DecidableEq

/-- The distinct error message the handler shows for each failure kind
(quiz_running.py lines 192, 195, 179, 197). -/
def errMsg : ExtractionError → String
  | .noJsonFound => "Could not find valid JSON. Please try again."
  | .malformedJson => "Failed to parse LLM output. The format was invalid."
  | .incompleteData => "The LLM returned incomplete data. Please try again."
  | .otherError => "An error occurred: "

/-- Does `pat` occur as a contiguous substring of `l`?  (Python's
`key in string` test.) -/
def subOccurs (pat : List Char) : List Char → Bool
  | [] => pat.isEmpty
  | c :: rest => pat.isPrefixOf (c :: rest) || subOccurs pat rest

/-- Python's `key in q_item` (quiz_running.py line 177) on a parsed JSON
value: key test on a dict, membership on a list, substring test on a
string; `none` models the `TypeError` raised on other values. -/
def pyContainsKey (k : String) : Json → Option Bool
  | .obj fs => some (fs.any (fun p => p.1 == k))
  | .arr xs => some (xs.any (fun x => match x with | .str s => s == k | _ => false))
  | .str s => some (subOccurs k.data s.data)
  | _ => none

/-- `all(key in q_item for key in ["question", "options", "correct_answer"])`
(quiz_running.py line 177), with Python's short-circuiting `all`. -/
def pyHasRequiredKeys (j : Json) : Option Bool :=
  match pyContainsKey "question" j with
  | none => none
  | some false => some false
  | some true =>
    match pyContainsKey "options" j with
    | none => none
    | some false => some false
    | some true => pyContainsKey "correct_answer" j

/-- The validation loop of quiz_running.py lines 174–180: iterate the
elements, and on the first one missing a key set `is_valid = False`, show
the incomplete-data error and `break`; a `TypeError` propagates to the
outer generic handler. -/
def validateItems : List Json → Except ExtractionError Unit
  | [] => .ok ()
  | x :: xs =>
    match pyHasRequiredKeys x with
    | none => .error .otherError
    | some false => .error .incompleteData
    | some true => validateItems xs

/-- The extraction pipeline of the Generate Quiz handler, quiz_running.py
lines 165–197 (identically quiz.py lines 106–130): regex region → `json.loads`
→ key-presence validation loop → on success the *whole* parsed list is
stored.  `requestedCount` is the slider value; the handler's extraction and
validation never read it (it only enters the prompt at line 162), and it is
kept as a parameter only to expose that fact. -/
def extract (raw : String) (requestedCount : Nat) : Except ExtractionError (List Json) :=
  match findJsonRegion raw with
  | none => .error .noJsonFound
  | some region =>
    match json_loads region with
    | none => .error .malformedJson
    | some (Json.arr items) =>
      match validateItems items with
      | .error e => .error e
      | .ok _ => .ok items
    | some _ => .error .otherError

/-- `q.get(key)` on a parsed JSON object (Python dicts keep the last value
bound to a duplicated key); `none` models both a missing key and `.get` on
a non-dict default. -/
def jsonGet (j : Json) (k : String) : Option Json :=
  match j with
  | .obj fs => (fs.reverse.find? (fun p => p.1 == k)).map (fun p => p.2)
  | _ => none

/-- `list(q.get("options", {}).keys())` (quiz_running.py line 229): the
option labels offered by the radio widget for one quiz item. -/
def optionKeysOf (q : Json) : List String :=
  match jsonGet q "options" with
  | some (Json.obj fs) => fs.map (fun p => p.1)
  | _ => []

/-- `q.get` of `correct_answer` viewed as an option label: `some c` when the
stored value is the JSON string `c`, else `none`. -/
def correctKeyOf (q : Json) : Option String :=
  match jsonGet q "correct_answer" with
  | some (Json.str c) => some c
  | _ => none

/-- Python's `user_choice == correct_answer` (quiz_running.py line 257):
`user_choice` is the radio selection (`None` or an option label string) and
`correct_answer` is `q.get` of `correct_answer` (`None` when the key is
missing, or the parsed JSON value, where JSON `null` is Python `None`). -/
def answerMatches (userChoice : Option String) (correctAnswer : Option Json) : Bool :=
  match userChoice, correctAnswer with
  | none, none => true
  | none, some Json.null => true
  | some k, some (Json.str c) => k == c
  | _, _ => false

/-- The scoring loop of quiz_running.py lines 248–258: iterate the quiz
items by index, compare the stored radio selection with
`q.get` of `correct_answer`, count the matches. -/
def score (items : List Json) (answers : List (Option String)) : Nat :=
  (List.range items.length).countP (fun i =>
    answerMatches (answers.getD i none) (jsonGet (items.getD i Json.null) "correct_answer"))

/-- The Streamlit session state of quiz_running.py (block 4):
`article_text`, `quiz_data`, `submitted` are the keys initialised at lines
98–105; `answers` collects the radio-widget values stored under the keys
`q_1 … q_n` (`none` = no selection, Streamlit keeps one entry per rendered
widget and drops entries of widgets that are no longer rendered). -/
structure SessionState where
  article_text : String
  quiz_data : Option (List Json)
  submitted : Bool
  answers : List (Option String)

/-- The discrete user actions, each one rerun of the script.  The outcome
of the external collaborators rides on the action: `fetchArticle` carries
either the normalized article text produced by the
requests→readability→BeautifulSoup chain (lines 129–136) or the exception
message, and `generateQuiz` carries either the raw string returned by
`chain.invoke` (line 160) or the exception message of a failed model
call. -/
inductive Action where
  | fetchArticle (url : String) (outcome : Except String String) : Action
  | generateQuiz (count : Nat) (modelOutput : Except String String) : Action
  | selectAnswer (idx : Nat) (key : String) : Action
  | submitAnswers : Action

/-- One user action against the persisted session state; returns the new
state and the error message shown, if any.

* `fetchArticle` (lines 114–142): the handler first unconditionally clears
  `quiz_data` and `submitted` (lines 116–117); an empty URL or a raised
  exception then leaves `article_text` empty and shows an error, otherwise
  the normalized text is stored.  The radio-widget entries disappear with
  their widgets once `quiz_data` is `None`.
* `generateQuiz` (lines 145–197): the button exists only while
  `article_text` is non-empty (truthy, line 145).  A model-call exception
  hits the generic handler (line 196); an extraction failure shows its
  message and changes nothing; on success `quiz_data` is set to the full
  parsed list, `submitted := false` (line 185), `article_text` is cleared
  (line 189), and the fresh radio widgets start unselected
  (`index=None`, line 235).
* `selectAnswer` (lines 215–236): widgets exist only while `quiz_data` is
  truthy, are `disabled` once `submitted` (line 234), and only offer the
  item's own option labels.
* `submitAnswers` (lines 238–244): the form and its button exist only
  while `quiz_data` is truthy; clicking sets `submitted := True`. -/
def step (s : SessionState) (a : Action) : SessionState × Option String :=
  match a with
  | .fetchArticle url outcome =>
    if url = "" then
      (⟨"", none, false, []⟩, some "Please enter a URL.")
    else
      match outcome with
      | .ok text => (⟨text, none, false, []⟩, none)
      | .error e =>
        (⟨"", none, false, []⟩, some ("An error occurred while fetching the article: " ++ e))
  | .generateQuiz count modelOutput =>
    if s.article_text = "" then (s, none)
    else
      match modelOutput with
      | .error e => (s, some ("An error occurred: " ++ e))
      | .ok raw =>
        match extract raw count with
        | .ok items =>
          (⟨"", some items, false, List.replicate items.length none⟩, none)
        | .error err => (s, some (errMsg err))
  | .selectAnswer idx key =>
    match s.quiz_data with
    | none => (s, none)
    | some items =>
      if items.isEmpty then (s, none)
      else if s.submitted then (s, none)
      else
        match items.get? idx with
        | none => (s, none)
        | some q =>
          if key ∈ optionKeysOf q then
            ({ s with answers := s.answers.set idx (some key) }, none)
          else (s, none)
  | .submitAnswers =>
    match s.quiz_data with
    | none => (s, none)
    | some items =>
      if items.isEmpty then (s, none)
      else ({ s with submitted := true }, none)

/-- `article_text` non-empty and `quiz_data` present never hold at once. -/
def mutualExclusion (s : SessionState) : Prop :=
  ¬(s.article_text ≠ "" ∧ s.quiz_data.isSome)

instance (s : SessionState) : Decidable (mutualExclusion s) := by
  unfold mutualExclusion; infer_instance

/-- Does the item carry four option entries, all of them strings?
(The data-model half of the QuizItem invariant.) -/
def optionsAreFourStrings (q : Json) : Bool :=
  match jsonGet q "options" with
  | some (Json.obj fs) =>
    fs.length == 4 && fs.all (fun p => match p.2 with | Json.str _ => true | _ => false)
  | _ => false

/-- Is the stored correct answer one of the item's option keys?
(The other half of the QuizItem invariant.) -/
def correctAnswerIsOptionKey (q : Json) : Bool :=
  match correctKeyOf q with
  | some c => (optionKeysOf q).contains c
  | none => false

/-- The QuizItem invariant of the data model: the correct answer is one of
the option keys and the options mapping has exactly four string-valued
entries. -/
def itemSatisfiesInvariant (q : Json) : Prop :=
  correctAnswerIsOptionKey q = true ∧ optionsAreFourStrings q = true

/-! ## Concrete values used by the claim instances -/

/-- Wire text of a well-formed quiz item. -/
def validItemText : String :=
  "\x7b\"question\":\"q\",\"options\":\x7b\"A\":\"1\",\"B\":\"2\",\"C\":\"3\",\"D\":\"4\"\x7d,\"correct_answer\":\"A\"\x7d"

/-- The parsed form of `validItemText`. -/
def validItem : Json :=
  Json.obj [("question", Json.str "q"),
    ("options", Json.obj [("A", Json.str "1"), ("B", Json.str "2"),
      ("C", Json.str "3"), ("D", Json.str "4")]),
    ("correct_answer", Json.str "A")]

/-- The spec's bracket-robustness example: one valid item wrapped in prose
that contains no further bracket. -/
def proseWrappedInput : String :=
  "Sure! Here you go: [ " ++ validItemText ++ " ] Hope that helps!"

/-- The same model output with one stray closing bracket in the trailing
prose. -/
def proseWithStrayBracket : String :=
  "Sure! Here you go: [ " ++ validItemText ++ " ] Hope that helps! :-]"

/-- A spec-shaped model output: five items, the third missing
`correct_answer` (wire text). -/
def fiveItemInput : String :=
  "[" ++ validItemText ++ "," ++ validItemText ++ ","
    ++ "\x7b\"question\":\"q3\",\"options\":\x7b\"A\":\"1\",\"B\":\"2\",\"C\":\"3\",\"D\":\"4\"\x7d\x7d"
    ++ "," ++ validItemText ++ "," ++ validItemText ++ "]"

/-- The parsed third element of `fiveItemInput`: all fields but
`correct_answer`. -/
def itemMissingAnswer : Json :=
  Json.obj [("question", Json.str "q3"),
    ("options", Json.obj [("A", Json.str "1"), ("B", Json.str "2"),
      ("C", Json.str "3"), ("D", Json.str "4")])]

/-- A model output whose single element has all three keys but only two
options and a correct answer that is not an option key. -/
def badInvariantInput : String :=
  "[\x7b\"question\":\"q\",\"options\":\x7b\"A\":\"1\",\"B\":\"2\"\x7d,\"correct_answer\":\"Z\"\x7d]"

/-- The parsed element of `badInvariantInput`. -/
def badInvariantItem : Json :=
  Json.obj [("question", Json.str "q"),
    ("options", Json.obj [("A", Json.str "1"), ("B", Json.str "2")]),
    ("correct_answer", Json.str "Z")]

/-- A three-item quiz whose correct answers are A, B, C, each an option
key of its item. -/
def threeItemQuiz : List Json :=
  [Json.obj [("question", Json.str "q1"),
     ("options", Json.obj [("A", Json.str "1"), ("B", Json.str "2"),
       ("C", Json.str "3"), ("D", Json.str "4")]),
     ("correct_answer", Json.str "A")],
   Json.obj [("question", Json.str "q2"),
     ("options", Json.obj [("A", Json.str "1"), ("B", Json.str "2"),
       ("C", Json.str "3"), ("D", Json.str "4")]),
     ("correct_answer", Json.str "B")],
   Json.obj [("question", Json.str "q3"),
     ("options", Json.obj [("A", Json.str "1"), ("B", Json.str "2"),
       ("C", Json.str "3"), ("D", Json.str "4")]),
     ("correct_answer", Json.str "C")]]

/-! ## Helper lemmas -/

/-- The validation loop accepts exactly the lists whose every element has
the three required keys. -/
theorem validateItems_ok_iff (xs : List Json) :
    validateItems xs = .ok () ↔ ∀ x ∈ xs, pyHasRequiredKeys x = some true := by
  induction xs with
  | nil => simp [validateItems]
  | cons x xs ih =>
    cases hx : pyHasRequiredKeys x with
    | none =>
      simp only [validateItems, hx, List.mem_cons]
      constructor
      · intro h; exact absurd h (by simp)
      · intro h
        have := h x (Or.inl rfl)
        rw [hx] at this
        exact absurd this (by simp)
    | some b =>
      cases b with
      | false =>
        simp only [validateItems, hx, List.mem_cons]
        constructor
        · intro h; exact absurd h (by simp)
        · intro h
          have := h x (Or.inl rfl)
          rw [hx] at this
          exact absurd this (by simp)
      | true =>
        simp only [validateItems, hx, List.mem_cons]
        rw [ih]
        constructor
        · intro h y hy
          cases hy with
          | inl he => rw [he]; exact hx
          | inr hm => exact h y hm
        · intro h y hy; exact h y (Or.inr hy)

/-- A list with an invalid element is rejected by the validation loop. -/
theorem validateItems_error_of_bad (xs : List Json)
    (h : ¬ ∀ x ∈ xs, pyHasRequiredKeys x = some true) :
    ∃ e, validateItems xs = .error e := by
  cases hv : validateItems xs with
  | ok u => cases u; exact absurd ((validateItems_ok_iff xs).mp hv) h
  | error e => exact ⟨e, rfl⟩

/-- Whatever `extract` returns successfully passed the validation loop. -/
theorem extract_ok_validated (raw : String) (c : Nat) (xs : List Json)
    (h : extract raw c = .ok xs) : validateItems xs = .ok () := by
  unfold extract at h
  cases hr : findJsonRegion raw with
  | none => simp only [hr] at h; exact Except.noConfusion h
  | some region =>
    simp only [hr] at h
    cases hj : json_loads region with
    | none => simp only [hj] at h; exact Except.noConfusion h
    | some j =>
      simp only [hj] at h
      cases j with
      | arr items =>
        cases hv : validateItems items with
        | error e => simp only [hv] at h; exact Except.noConfusion h
        | ok u =>
          cases u
          simp only [hv, Except.ok.injEq] at h
          rw [← h]
          exact hv
      | null => simp at h
      | bool b => simp at h
      | num n => simp at h
      | str s => simp at h
      | obj fs => simp at h

/-! ## The claims -/

set_option maxRecDepth 200000

/-- C1, counterexample.  The claim says that for every model output holding
exactly one valid top-level JSON array surrounded by arbitrary prose,
`extract` locates the outermost balanced bracket pair and returns the
array's items.  `proseWithStrayBracket` holds exactly one valid array
(its bracketed region parses, first conjunct) but its trailing prose ends
in a stray `]`; the greedy regex of line 167 grabs everything up to that
last `]`, and the extraction fails with the malformed-JSON error instead
of succeeding. -/
theorem extract_stray_bracket_fails :
    json_loads ("[ " ++ validItemText ++ " ]") = some (Json.arr [validItem]) ∧
    extract proseWithStrayBracket 1 = .error .malformedJson :=
  ⟨rfl, rfl⟩

/-- C1, amended.  `extract` takes the substring from the first `[` to the
last `]` of the whole output, so it succeeds on prose-wrapped arrays only
when the prose holds no further bracket; in particular, on the spec's
bracket-robustness example it succeeds and returns exactly the one item. -/
theorem extract_prose_wrapped_example :
    extract proseWrappedInput 1 = .ok [validItem] := rfl

/-- C2, counterexample.  The claim says an array of five items whose third
item is missing `correct_answer` yields a four-item QuizSet and one
recorded per-item error.  Instead the validation loop of lines 174–180
aborts the whole extraction with the incomplete-data error: nothing is
returned, even though the region parses to five items of which four are
valid (remaining conjuncts). -/
theorem extract_partial_failure_is_total :
    extract fiveItemInput 5 = .error .incompleteData ∧
    json_loads fiveItemInput
      = some (Json.arr [validItem, validItem, itemMissingAnswer, validItem, validItem]) ∧
    pyHasRequiredKeys validItem = some true ∧
    pyHasRequiredKeys itemMissingAnswer = some false :=
  ⟨rfl, rfl, rfl, rfl⟩

/-- C2, amended.  The extraction is all-or-nothing: once a region is found
and parses to an array, either every element has the three required keys
and the whole array is returned, or some element does not and the whole
extraction fails — no element is ever dropped individually. -/
theorem extract_never_drops_items (raw : String) (c : Nat) (r : String) (xs : List Json)
    (h1 : findJsonRegion raw = some r) (h2 : json_loads r = some (Json.arr xs)) :
    ((∀ x ∈ xs, pyHasRequiredKeys x = some true) → extract raw c = .ok xs) ∧
    ((¬ ∀ x ∈ xs, pyHasRequiredKeys x = some true) → ∃ e, extract raw c = .error e) := by
  constructor
  · intro hall
    unfold extract
    simp only [h1, h2, (validateItems_ok_iff xs).mpr hall]
  · intro hbad
    obtain ⟨e, he⟩ := validateItems_error_of_bad xs hbad
    refine ⟨e, ?_⟩
    unfold extract
    simp only [h1, h2, he]

/-- C2, witness for `extract_never_drops_items` at the five-item input. -/
theorem extract_never_drops_items_checked :
    ∃ e, extract fiveItemInput 5 = Except.error e :=
  (extract_never_drops_items fiveItemInput 5 fiveItemInput
      [validItem, validItem, itemMissingAnswer, validItem, validItem] rfl rfl).2
    (fun hall => by
      have := hall itemMissingAnswer (by simp)
      rw [show pyHasRequiredKeys itemMissingAnswer = some false from rfl] at this
      exact Option.noConfusion this (fun hb => Bool.noConfusion hb))

/-- C3, counterexample.  The claim says every item of a returned QuizSet
has its correct answer among its option keys and exactly four string
options.  The validation loop checks only key presence, so an item with
two options and an alien correct answer comes back in a successful
QuizSet, violating both halves of the invariant. -/
theorem extract_returns_invariant_violating_item :
    extract badInvariantInput 1 = .ok [badInvariantItem] ∧
    ¬ itemSatisfiesInvariant badInvariantItem :=
  ⟨rfl, by unfold itemSatisfiesInvariant; decide⟩

/-- C3, amended.  Everything a successful extraction returns passed the
key-presence test — and only that test: each returned element has the
three required keys (by Python's membership check), with no constraint on
option count, option value types, or correct-answer membership. -/
theorem extract_ok_elements_have_keys (raw : String) (c : Nat) (xs : List Json)
    (h : extract raw c = .ok xs) : ∀ x ∈ xs, pyHasRequiredKeys x = some true :=
  (validateItems_ok_iff xs).mp (extract_ok_validated raw c xs h)

/-- C3, witness for `extract_ok_elements_have_keys` at the one-item bad
input. -/
theorem extract_ok_elements_have_keys_checked :
    pyHasRequiredKeys badInvariantItem = some true :=
  extract_ok_elements_have_keys badInvariantInput 1 [badInvariantItem] rfl
    badInvariantItem (by simp)

/-- C4, counterexample.  The claim says the input consisting of `[invalid
json` fails with the malformed-JSON kind and the empty array fails with an
empty-quiz kind.  Instead `[invalid json` has no closing bracket, so the
regex itself fails (the no-JSON-found exit, not the malformed-JSON one),
and `[]` is a *success* storing an empty quiz — the code has no empty-quiz
failure at all. -/
theorem extract_error_kinds_counterexample :
    extract "[invalid json" 5 = .error .noJsonFound ∧
    ExtractionError.noJsonFound ≠ ExtractionError.malformedJson ∧
    extract "[]" 5 = .ok [] :=
  ⟨rfl, by decide, rfl⟩

/-- C4, amended.  `"no json here"` and `"[invalid json"` both take the
no-JSON-found exit (the latter because the regex needs a closing bracket);
a bracketed region that fails to parse, such as `"[invalid json]"`, takes
the malformed-JSON exit; `"[]"` succeeds with an empty list instead of
failing.  The three failure exits that do exist carry pairwise distinct
messages. -/
theorem extract_error_kinds :
    extract "no json here" 5 = .error .noJsonFound ∧
    extract "[invalid json" 5 = .error .noJsonFound ∧
    extract "[invalid json]" 5 = .error .malformedJson ∧
    extract "[]" 5 = .ok [] ∧
    errMsg .noJsonFound ≠ errMsg .malformedJson ∧
    errMsg .noJsonFound ≠ errMsg .incompleteData ∧
    errMsg .malformedJson ≠ errMsg .incompleteData :=
  ⟨rfl, rfl, rfl, rfl, by decide, by decide, by decide⟩

/-- C9.  The requested question count never enters the extraction: on the
same raw model output, `extract` returns the same result (same items, same
order, same length) for any two requested counts — the count informs only
the prompt sent to the model, and the result is never truncated or padded
to it. -/
theorem extract_ignores_requested_count (raw : String) (c1 c2 : Nat) :
    extract raw c1 = extract raw c2 := rfl

/-- C5, counterexample.  The claim says a failed Fetch leaves the entire
session state unchanged.  In the handler, `quiz_data` and `submitted` are
cleared *before* the network call (lines 116–117), so starting from a
reviewing state (a quiz present, answers submitted) a fetch failure wipes
the quiz and the submission flag — the state is not unchanged. -/
theorem fetch_failure_changes_state :
    (SessionState.mk "" (some [validItem]) true [some "A"]).quiz_data.isSome = true ∧
    ((step (SessionState.mk "" (some [validItem]) true [some "A"])
        (.fetchArticle "http://x" (.error "connection refused"))).1.quiz_data.isSome
      = false) ∧
    (SessionState.mk "" (some [validItem]) true [some "A"]).submitted = true ∧
    ((step (SessionState.mk "" (some [validItem]) true [some "A"])
        (.fetchArticle "http://x" (.error "connection refused"))).1.submitted = false) :=
  ⟨rfl, rfl, rfl, rfl⟩

/-- C5, amended.  A Fetch that fails with a fetch error resets the whole
session state — quiz and submission flag cleared (lines 116–117), article
text emptied (line 142) — and surfaces the underlying cause verbatim in
the error message (line 141). -/
theorem fetch_failure_resets_state (s : SessionState) (url e : String) (h : url ≠ "") :
    step s (.fetchArticle url (.error e))
      = (SessionState.mk "" none false [],
         some ("An error occurred while fetching the article: " ++ e)) := by
  simp only [step, if_neg h]

/-- C5, witness for `fetch_failure_resets_state` at a concrete reviewing
state and failure. -/
theorem fetch_failure_resets_state_checked :
    step (SessionState.mk "old text" (some [validItem]) true [some "A"])
        (.fetchArticle "http://x" (.error "connection refused"))
      = (SessionState.mk "" none false [],
         some ("An error occurred while fetching the article: " ++ "connection refused")) :=
  fetch_failure_resets_state (SessionState.mk "old text" (some [validItem]) true [some "A"])
    "http://x" "connection refused" (by decide)

/-- C6.  From a previewing state (article text non-empty), Generate with a
successful model call whose output extracts to `items` moves to the state
with exactly that quiz, submission flag false, every answer unselected and
the article text cleared; a failed model call or a failed extraction
leaves the state exactly as it was. -/
theorem generate_transition (s : SessionState) (count : Nat)
    (mo : Except String String) (hprev : s.article_text ≠ "") :
    (∀ raw items, mo = .ok raw → extract raw count = .ok items →
      step s (.generateQuiz count mo)
        = (SessionState.mk "" (some items) false (List.replicate items.length none),
           none)) ∧
    (∀ e, mo = .error e →
      step s (.generateQuiz count mo) = (s, some ("An error occurred: " ++ e))) ∧
    (∀ raw err, mo = .ok raw → extract raw count = .error err →
      step s (.generateQuiz count mo) = (s, some (errMsg err))) := by
  refine ⟨?_, ?_, ?_⟩
  · intro raw items hmo hex
    subst hmo
    simp only [step, if_neg hprev, hex]
  · intro e hmo
    subst hmo
    simp only [step, if_neg hprev]
  · intro raw err hmo hex
    subst hmo
    simp only [step, if_neg hprev, hex]

/-- C6, witness for `generate_transition`: a previewing state, one
successful generation and one failing model call. -/
theorem generate_transition_checked :
    step (SessionState.mk "article body" none false [])
        (.generateQuiz 1 (.ok proseWrappedInput))
      = (SessionState.mk "" (some [validItem]) false [none], none) ∧
    step (SessionState.mk "article body" none false [])
        (.generateQuiz 1 (.error "model down"))
      = (SessionState.mk "article body" none false [],
         some ("An error occurred: " ++ "model down")) :=
  ⟨(generate_transition (SessionState.mk "article body" none false []) 1
      (.ok proseWrappedInput) (by decide)).1 proseWrappedInput [validItem] rfl rfl,
   (generate_transition (SessionState.mk "article body" none false []) 1
      (.error "model down") (by decide)).2.1 "model down" rfl⟩

/-- A data-model-conformant item stores its correct answer as a string. -/
theorem correctKeyOf_isSome_of_valid (q : Json)
    (h : correctAnswerIsOptionKey q = true) : ∃ c, correctKeyOf q = some c := by
  cases hc : correctKeyOf q with
  | some c => exact ⟨c, rfl⟩
  | none =>
    unfold correctAnswerIsOptionKey at h
    simp only [hc] at h
    exact Bool.noConfusion h

/-- `correctKeyOf q = some c` pins the stored wire value down to the JSON
string `c`. -/
theorem jsonGet_of_correctKeyOf (q : Json) (c : String)
    (hc : correctKeyOf q = some c) :
    jsonGet q "correct_answer" = some (Json.str c) := by
  unfold correctKeyOf at hc
  cases hj : jsonGet q "correct_answer" with
  | none => simp only [hj] at hc; exact Option.noConfusion hc
  | some v =>
    simp only [hj] at hc
    cases v with
    | str s => rw [Option.some.injEq] at hc; rw [hc]
    | null => simp at hc
    | bool b => simp at hc
    | num n => simp at hc
    | arr xs => simp at hc
    | obj fs => simp at hc

/-- Against a string-valued correct answer, the Python comparison is plain
equality of optional strings. -/
theorem answerMatches_as_beq (a : Option String) (c : String) :
    answerMatches a (some (Json.str c)) = (a == some c) := by
  cases a with
  | none => rfl
  | some k => rfl

/-- C7.  In a reviewing state whose quiz conforms to the data model (every
item's correct answer is one of its option keys), the computed score is
the number of indices whose stored answer equals the item's correct
answer; an unanswered entry never equals the correct answer and so
contributes nothing to the count. -/
theorem score_counts_matching_answers (items : List Json)
    (answers : List (Option String))
    (hkey : ∀ q ∈ items, correctAnswerIsOptionKey q = true) :
    score items answers
      = (List.range items.length).countP
          (fun i => answers.getD i none == correctKeyOf (items.getD i Json.null)) ∧
    ∀ i ∈ List.range items.length, answers.getD i none = none →
      (answers.getD i none == correctKeyOf (items.getD i Json.null)) = false := by
  have hmem : ∀ i, i < items.length → items.getD i Json.null ∈ items := by
    intro i hlt
    rw [List.getD_eq_getElem items Json.null hlt]
    exact List.getElem_mem hlt
  have hpt : ∀ i ∈ List.range items.length,
      answerMatches (answers.getD i none)
          (jsonGet (items.getD i Json.null) "correct_answer")
        = (answers.getD i none == correctKeyOf (items.getD i Json.null)) := by
    intro i hi
    have hlt : i < items.length := List.mem_range.mp hi
    obtain ⟨c, hc⟩ :=
      correctKeyOf_isSome_of_valid _ (hkey _ (hmem i hlt))
    rw [jsonGet_of_correctKeyOf _ c hc, hc, answerMatches_as_beq]
  constructor
  · unfold score
    exact List.countP_congr (fun i hi => by rw [hpt i hi])
  · intro i hi hnone
    have hlt : i < items.length := List.mem_range.mp hi
    obtain ⟨c, hc⟩ :=
      correctKeyOf_isSome_of_valid _ (hkey _ (hmem i hlt))
    rw [hnone, hc]
    rfl

/-- C7, witness for `score_counts_matching_answers`: the spec's scoring
example — correct answers A, B, C against user answers A, B, D — scores
exactly 2, and the third entry left unanswered would contribute 0. -/
theorem score_counts_matching_answers_checked :
    score threeItemQuiz [some "A", some "B", some "D"] = 2 ∧
    score threeItemQuiz [some "A", some "B", some "D"]
      = (List.range threeItemQuiz.length).countP
          (fun i => ([some "A", some "B", some "D"] : List (Option String)).getD i none
            == correctKeyOf (threeItemQuiz.getD i Json.null)) :=
  ⟨by decide,
   (score_counts_matching_answers threeItemQuiz [some "A", some "B", some "D"]
      (by decide)).1⟩

/-- C8.  Submitting freezes the answers: a SelectAnswer attempted after a
Submit never changes the stored answers (the widgets are disabled once
`submitted` is set, line 234); and a Submit when no quiz exists is a
no-op that does not crash and leaves the state untouched (the form and
its button are only rendered while `quiz_data` is truthy, line 215). -/
theorem select_after_submit_is_noop (s : SessionState) (idx : Nat) (key : String) :
    ((step (step s .submitAnswers).1 (.selectAnswer idx key)).1).answers
        = (step s .submitAnswers).1.answers ∧
    (s.quiz_data = none → step s .submitAnswers = (s, none)) := by
  constructor
  · cases hq : s.quiz_data with
    | none => simp [step, hq]
    | some items =>
      by_cases he : items.isEmpty
      · simp [step, hq, he]
      · simp [step, hq, he]
  · intro h
    simp [step, h]

/-- C8, witness for `select_after_submit_is_noop`: a concrete quiz state
and a concrete quiz-less (previewing) state. -/
theorem select_after_submit_is_noop_checked :
    ((step (step (SessionState.mk "" (some [validItem]) false [none])
          .submitAnswers).1 (.selectAnswer 0 "A")).1).answers
      = (step (SessionState.mk "" (some [validItem]) false [none])
          .submitAnswers).1.answers ∧
    step (SessionState.mk "article body" none false []) .submitAnswers
      = (SessionState.mk "article body" none false [], none) :=
  ⟨(select_after_submit_is_noop (SessionState.mk "" (some [validItem]) false [none])
      0 "A").1,
   (select_after_submit_is_noop (SessionState.mk "article body" none false [])
      0 "A").2 rfl⟩

/-- C10.  The mutual-exclusion invariant — article text non-empty and a
quiz present never hold at once — is preserved by every action: a
successful Fetch clears the quiz before storing the article text (lines
116, 138) and a successful Generate clears the article text when storing
the quiz (lines 184, 189). -/
theorem step_preserves_mutual_exclusion (s : SessionState) (a : Action)
    (h : mutualExclusion s) : mutualExclusion (step s a).1 := by
  cases a with
  | fetchArticle url outcome =>
    by_cases hu : url = ""
    · simp [step, hu, mutualExclusion]
    · cases outcome with
      | ok t => simp [step, hu, mutualExclusion]
      | error e => simp [step, hu, mutualExclusion]
  | generateQuiz count mo =>
    by_cases ha : s.article_text = ""
    · simpa [step, ha] using h
    · cases mo with
      | error e => simpa [step, ha] using h
      | ok raw =>
        cases he : extract raw count with
        | ok items => simp [step, ha, he, mutualExclusion]
        | error err => simpa [step, ha, he] using h
  | selectAnswer idx key =>
    cases hq : s.quiz_data with
    | none => simpa [step, hq] using h
    | some items =>
      have harticle : s.article_text = "" := by
        by_contra hne
        exact h ⟨hne, by rw [hq]; rfl⟩
      by_cases he : items.isEmpty
      · simpa [step, hq, he] using h
      · by_cases hs : s.submitted
        · simpa [step, hq, he, hs] using h
        · cases hg : items[idx]? with
          | none => simpa [step, hq, he, hs, hg] using h
          | some q =>
            by_cases hk : key ∈ optionKeysOf q
            · simp [step, hq, he, hs, hg, hk, mutualExclusion, harticle]
            · simpa [step, hq, he, hs, hg, hk] using h
  | submitAnswers =>
    cases hq : s.quiz_data with
    | none => simpa [step, hq] using h
    | some items =>
      have harticle : s.article_text = "" := by
        by_contra hne
        exact h ⟨hne, by rw [hq]; rfl⟩
      by_cases he : items.isEmpty
      · simpa [step, hq, he] using h
      · simp [step, hq, he, mutualExclusion, harticle]

/-- C10, witness for `step_preserves_mutual_exclusion`: from a previewing
state, a successful Generate keeps the invariant. -/
theorem step_preserves_mutual_exclusion_checked :
    mutualExclusion (step (SessionState.mk "article body" none false [])
      (.generateQuiz 1 (.ok proseWrappedInput))).1 :=
  step_preserves_mutual_exclusion (SessionState.mk "article body" none false [])
    (.generateQuiz 1 (.ok proseWrappedInput)) (by decide)

end Quiz
